import Mathlib

/-!
Shallow embedding of the `inventory_manager` Home Assistant custom component
(`custom_components/inventory_manager/__init__.py` and
`custom_components/inventory_manager/binary_sensor.py`), restricted to the
consumption-tracker core: the `InventoryManagerItem` value store
(`set` / `get` / `take_dose` / `take_number` / `days_remaining` /
`daily_consumption`) and the `WarnSensor.update` observer.

Modelling choices, each taken from the source:
* Python floats are modelled as rationals (`ℚ`); the arithmetic the code
  performs (addition, subtraction, division, comparison with literals) is
  exact on the values the claims are about.
* `self._numbers` is a Python dict keyed by `InventoryManagerEntityType`;
  it is modelled as `InventoryManagerEntityType → Option ℚ` (`none` =
  key absent).  `get` uses `dict.setdefault(entity_type, 0)`, which both
  returns the stored-or-default value and inserts the default when the key
  is absent, so `get` is modelled as returning the updated state together
  with the value.
* `self.entity` maps an entity type to a registered sub-entity (or is
  missing that key).  For the core we model which observer slots are
  registered (`registered`) and log every `sub_entity.update()` invocation
  that `set` performs (`notifications`); the actual effect of
  `WarnSensor.update` on the sensor is modelled separately below.
* All Python methods here either return normally or raise; none of the
  modelled code paths can raise (dict.setdefault never raises KeyError or
  AttributeError, `IntFlag` membership tests never raise), so every
  embedded operation is a total Lean function.
-/

/-- The `IntFlag` enumeration `InventoryManagerEntityType` from
`__init__.py`.  Only the seven declared members are modelled; the numeric
flag values are recorded by `toInt` below. -/
inductive InventoryManagerEntityType where
  | SUPPLY
  | NIGHT
  | MORNING
  | NOON
  | EVENING
  | WARNING
  | EMPTYPREDICTION
deriving DecidableEq, Repr

/-- The numeric values of the `IntFlag` members (`SUPPLY = 1`, `NIGHT = 4`,
`MORNING = 8`, `NOON = 32`, `EVENING = 64`, `WARNING = 128`,
`EMPTYPREDICTION = 256`). -/
def InventoryManagerEntityType.toInt : InventoryManagerEntityType → Nat
  | .SUPPLY => 1
  | .NIGHT => 4
  | .MORNING => 8
  | .NOON => 32
  | .EVENING => 64
  | .WARNING => 128
  | .EMPTYPREDICTION => 256

/-- The mutable state of one `InventoryManagerItem`:
`numbers` is `self._numbers`, `registered` records which keys of
`self.entity` hold a registered sub-entity, and `notifications` logs, in
order, every `sub_entity.update()` call issued by `set`. -/
structure InventoryManagerItem where
  numbers : InventoryManagerEntityType → Option ℚ
  registered : InventoryManagerEntityType → Bool
  notifications : List InventoryManagerEntityType

namespace InventoryManagerItem

/-- `get`: `return self._numbers.setdefault(entity_type, 0)`.
`setdefault` returns the stored value when the key is present and
otherwise inserts and returns the default `0`; the updated dict is part of
the result. -/
def get (s : InventoryManagerItem) (entity_type : InventoryManagerEntityType) :
    InventoryManagerItem × ℚ :=
  match s.numbers entity_type with
  | some v => (s, v)
  | none =>
      ({ s with numbers := fun q => if q = entity_type then some 0 else s.numbers q }, 0)

/-- `set`: stores `0.0` when `val < 0`, else `val`, then iterates over
`[EMPTYPREDICTION, WARNING]` and calls `sub_entity.update()` for each
registered sub-entity (a missing sub-entity is only logged). -/
def set (s : InventoryManagerItem) (spec : InventoryManagerEntityType) (val : ℚ) :
    InventoryManagerItem :=
  let stored : ℚ := if val < 0 then 0 else val
  let s₁ : InventoryManagerItem :=
    { s with numbers := fun q => if q = spec then some stored else s.numbers q }
  let s₂ : InventoryManagerItem :=
    if s₁.registered .EMPTYPREDICTION then
      { s₁ with notifications := s₁.notifications ++ [.EMPTYPREDICTION] }
    else s₁
  if s₂.registered .WARNING then
    { s₂ with notifications := s₂.notifications ++ [.WARNING] }
  else s₂

/-- `take_number`: `if number != 0: self.set(SUPPLY, self.get(SUPPLY) - number)`. -/
def take_number (s : InventoryManagerItem) (number : ℚ) : InventoryManagerItem :=
  if number ≠ 0 then
    let p := s.get .SUPPLY
    p.1.set .SUPPLY (p.2 - number)
  else s

/-- `take_dose`: returns unchanged (after a debug log) when `dose` is not
one of `MORNING`, `NOON`, `EVENING`, `NIGHT`; otherwise reads
`amount = self.get(dose)` and calls `self.take_number(amount)`. -/
def take_dose (s : InventoryManagerItem) (dose : InventoryManagerEntityType) :
    InventoryManagerItem :=
  if dose ∈ [InventoryManagerEntityType.MORNING, InventoryManagerEntityType.NOON,
      InventoryManagerEntityType.EVENING, InventoryManagerEntityType.NIGHT] then
    let p := s.get dose
    p.1.take_number p.2
  else s

/-- `daily_consumption`: sums `self.get` over
`[MORNING, NOON, EVENING, NIGHT]`.  The source wraps the sum in
`try ... except (KeyError, AttributeError): return 0`; `dict.setdefault`
raises neither exception, so the handler is unreachable and the embedding
is the plain sum (threading the `setdefault` state updates). -/
def daily_consumption (s : InventoryManagerItem) : InventoryManagerItem × ℚ :=
  let p₁ := s.get .MORNING
  let p₂ := p₁.1.get .NOON
  let p₃ := p₂.1.get .EVENING
  let p₄ := p₃.1.get .NIGHT
  (p₄.1, p₁.2 + p₂.2 + p₃.2 + p₄.2)

/-- `days_remaining`: `supply = self.get(SUPPLY)`,
`daily = self.daily_consumption()`, then `supply / daily` when
`daily > 0`, else the sentinel `10000`. -/
def days_remaining (s : InventoryManagerItem) : InventoryManagerItem × ℚ :=
  let p₁ := s.get .SUPPLY
  let p₂ := p₁.1.daily_consumption
  if p₂.2 > 0 then (p₂.1, p₁.2 / p₂.2) else (p₂.1, 10000)

/-- The value `get` would return for a quantity (stored value, or the
`setdefault` default `0` when absent). -/
def valueOf (s : InventoryManagerItem) (q : InventoryManagerEntityType) : ℚ :=
  (s.numbers q).getD 0

end InventoryManagerItem

/-- A freshly constructed item: `self._numbers = {}`, no sub-entities
registered, no notifications issued yet. -/
def freshItem : InventoryManagerItem :=
  { numbers := fun _ => none, registered := fun _ => false, notifications := [] }

/-- A fresh item whose `WARNING` slot holds a registered sub-entity, as
after `WarnSensor.__init__` runs
(`self.item.entity[InventoryManagerEntityType.WARNING] = self`). -/
def warnItem : InventoryManagerItem :=
  { numbers := fun _ => none,
    registered := fun q => q = InventoryManagerEntityType.WARNING,
    notifications := [] }

/-- The observable state of a `WarnSensor` (`binary_sensor.py`). -/
structure WarnSensor where
  is_on : Bool
  available : Bool

/-- `days_remaining == STATE_UNAVAILABLE` in `WarnSensor.update` compares
a Python `float` with the string constant `"unavailable"`; Python `==`
between a float and a str is always `False` (and raises nothing). -/
def floatEqStateUnavailable (_ : ℚ) : Bool := false

/-- `WarnSensor.update`: recomputes `days_remaining`, takes the
(unreachable) unavailable branch when the float equals the string
`STATE_UNAVAILABLE`, and otherwise sets `available = True` and
`is_on = days_remaining < self.item.data[CONF_SENSOR_BEFORE_EMPTY]`.
`sensor_before_empty` is that configured threshold. -/
def WarnSensor.update (w : WarnSensor) (item : InventoryManagerItem)
    (sensor_before_empty : ℚ) : WarnSensor × InventoryManagerItem :=
  let p := item.days_remaining
  if floatEqStateUnavailable p.2 then
    ({ w with is_on := false, available := false }, p.1)
  else
    ({ w with available := true, is_on := decide (p.2 < sensor_before_empty) }, p.1)

/-- One externally triggered operation on a tracker (the method surface the
host automation layer can call). -/
inductive TrackerOp where
  | opSet : InventoryManagerEntityType → ℚ → TrackerOp
  | opGet : InventoryManagerEntityType → TrackerOp
  | opTakeDose : InventoryManagerEntityType → TrackerOp
  | opTakeAmount : ℚ → TrackerOp

/-- Run one operation on the item state. -/
def applyOp (s : InventoryManagerItem) : TrackerOp → InventoryManagerItem
  | .opSet q v => s.set q v
  | .opGet q => (s.get q).1
  | .opTakeDose d => s.take_dose d
  | .opTakeAmount a => s.take_number a

/-- Run a sequence of operations on the item state. -/
def runOps (s : InventoryManagerItem) (ops : List TrackerOp) : InventoryManagerItem :=
  ops.foldl applyOp s

/-- All values stored in `_numbers` are non-negative. -/
def storedNonneg (s : InventoryManagerItem) : Prop :=
  ∀ q v, s.numbers q = some v → 0 ≤ v

namespace InventoryManagerItem

theorem get_snd (s : InventoryManagerItem) (q : InventoryManagerEntityType) :
    (s.get q).2 = s.valueOf q := by
  cases h : s.numbers q <;> simp [get, valueOf, h]

theorem get_fst_numbers (s : InventoryManagerItem) (q q' : InventoryManagerEntityType) :
    (s.get q).1.numbers q' = if q' = q then some (s.valueOf q) else s.numbers q' := by
  cases h : s.numbers q with
  | none => simp [get, valueOf, h]
  | some v =>
      simp only [get, valueOf, h, Option.getD_some]
      split
      · next heq => subst heq; exact h
      · rfl

theorem get_fst_valueOf (s : InventoryManagerItem) (q q' : InventoryManagerEntityType) :
    (s.get q).1.valueOf q' = s.valueOf q' := by
  rw [valueOf, get_fst_numbers]
  split
  · next heq => subst heq; rfl
  · rfl

theorem get_fst_registered (s : InventoryManagerItem) (q : InventoryManagerEntityType) :
    (s.get q).1.registered = s.registered := by
  cases h : s.numbers q <;> simp [get, h]

theorem get_fst_notifications (s : InventoryManagerItem) (q : InventoryManagerEntityType) :
    (s.get q).1.notifications = s.notifications := by
  cases h : s.numbers q <;> simp [get, h]

theorem set_numbers (s : InventoryManagerItem) (q : InventoryManagerEntityType) (v : ℚ)
    (q' : InventoryManagerEntityType) :
    (s.set q v).numbers q' =
      if q' = q then some (if v < 0 then 0 else v) else s.numbers q' := by
  cases h₁ : s.registered .EMPTYPREDICTION <;> cases h₂ : s.registered .WARNING <;>
    simp [set, h₁, h₂]

theorem set_valueOf (s : InventoryManagerItem) (q : InventoryManagerEntityType) (v : ℚ)
    (q' : InventoryManagerEntityType) :
    (s.set q v).valueOf q' =
      if q' = q then (if v < 0 then 0 else v) else s.valueOf q' := by
  rw [valueOf, set_numbers]
  split <;> rfl

theorem set_registered (s : InventoryManagerItem) (q : InventoryManagerEntityType) (v : ℚ) :
    (s.set q v).registered = s.registered := by
  cases h₁ : s.registered .EMPTYPREDICTION <;> cases h₂ : s.registered .WARNING <;>
    simp [set, h₁, h₂]

theorem set_notifications (s : InventoryManagerItem) (q : InventoryManagerEntityType) (v : ℚ) :
    (s.set q v).notifications =
      s.notifications
        ++ (if s.registered .EMPTYPREDICTION then [.EMPTYPREDICTION] else [])
        ++ (if s.registered .WARNING then [.WARNING] else []) := by
  cases h₁ : s.registered .EMPTYPREDICTION <;> cases h₂ : s.registered .WARNING <;>
    simp [set, h₁, h₂]

theorem daily_consumption_snd (s : InventoryManagerItem) :
    (s.daily_consumption).2 =
      s.valueOf .MORNING + s.valueOf .NOON + s.valueOf .EVENING + s.valueOf .NIGHT := by
  simp [daily_consumption, get_snd, get_fst_valueOf]

theorem daily_consumption_fst_valueOf (s : InventoryManagerItem)
    (q : InventoryManagerEntityType) :
    (s.daily_consumption).1.valueOf q = s.valueOf q := by
  simp [daily_consumption, get_fst_valueOf]

theorem days_remaining_snd (s : InventoryManagerItem) :
    (s.days_remaining).2 =
      if (s.daily_consumption).2 > 0
      then s.valueOf .SUPPLY / (s.daily_consumption).2
      else 10000 := by
  simp only [days_remaining, get_snd, get_fst_valueOf, daily_consumption_snd]
  split <;> rfl

theorem take_number_zero (s : InventoryManagerItem) : s.take_number 0 = s := by
  simp [take_number]

theorem take_number_ne (s : InventoryManagerItem) (a : ℚ) (h : a ≠ 0) :
    s.take_number a = (s.get .SUPPLY).1.set .SUPPLY ((s.get .SUPPLY).2 - a) := by
  simp [take_number, h]

end InventoryManagerItem

theorem freshItem_valueOf (q : InventoryManagerEntityType) : freshItem.valueOf q = 0 := rfl

theorem warnItem_valueOf (q : InventoryManagerEntityType) : warnItem.valueOf q = 0 := rfl

theorem freshItem_storedNonneg : storedNonneg freshItem := by
  intro q v hv
  simp [freshItem] at hv

theorem storedNonneg_valueOf {s : InventoryManagerItem} (hs : storedNonneg s)
    (q : InventoryManagerEntityType) : 0 ≤ s.valueOf q := by
  rw [InventoryManagerItem.valueOf]
  cases h : s.numbers q with
  | none => simp
  | some v => simpa using hs q v h

theorem storedNonneg_get {s : InventoryManagerItem} (hs : storedNonneg s)
    (q : InventoryManagerEntityType) : storedNonneg (s.get q).1 := by
  intro q' v hv
  rw [InventoryManagerItem.get_fst_numbers] at hv
  split at hv
  · injection hv with h
    exact h ▸ storedNonneg_valueOf hs q
  · exact hs q' v hv

theorem storedNonneg_set {s : InventoryManagerItem} (hs : storedNonneg s)
    (q : InventoryManagerEntityType) (v : ℚ) : storedNonneg (s.set q v) := by
  intro q' w hw
  rw [InventoryManagerItem.set_numbers] at hw
  split at hw
  · injection hw with h
    subst h
    split
    · exact le_refl 0
    · next hv => exact not_lt.mp hv
  · exact hs q' w hw

theorem storedNonneg_take_number {s : InventoryManagerItem} (hs : storedNonneg s)
    (a : ℚ) : storedNonneg (s.take_number a) := by
  by_cases h : a = 0
  · subst h
    rw [InventoryManagerItem.take_number_zero]
    exact hs
  · rw [InventoryManagerItem.take_number_ne s a h]
    exact storedNonneg_set (storedNonneg_get hs _) _ _

theorem storedNonneg_take_dose {s : InventoryManagerItem} (hs : storedNonneg s)
    (dose : InventoryManagerEntityType) : storedNonneg (s.take_dose dose) := by
  rw [InventoryManagerItem.take_dose]
  split
  · exact storedNonneg_take_number (storedNonneg_get hs dose) _
  · exact hs

theorem storedNonneg_applyOp {s : InventoryManagerItem} (hs : storedNonneg s)
    (op : TrackerOp) : storedNonneg (applyOp s op) := by
  cases op with
  | opSet q v => exact storedNonneg_set hs q v
  | opGet q => exact storedNonneg_get hs q
  | opTakeDose d => exact storedNonneg_take_dose hs d
  | opTakeAmount a => exact storedNonneg_take_number hs a

theorem storedNonneg_runOps (ops : List TrackerOp) :
    ∀ s : InventoryManagerItem, storedNonneg s → storedNonneg (runOps s ops) := by
  induction ops with
  | nil => exact fun s hs => hs
  | cons op rest ih =>
      intro s hs
      exact ih (applyOp s op) (storedNonneg_applyOp hs op)

open InventoryManagerItem

/-- C1: for every tracker state, `days_remaining` returns
`get(SUPPLY) / daily_consumption()` when `daily_consumption() > 0` and the
numeric sentinel `10000` when `daily_consumption() = 0`; being a total
function into `ℚ` it never raises and never produces an infinity. -/
theorem C1_days_remaining_division_or_sentinel (s : InventoryManagerItem) :
    (s.days_remaining).2 =
      if (s.daily_consumption).2 > 0
      then (s.get .SUPPLY).2 / (s.daily_consumption).2
      else 10000 := by
  rw [days_remaining_snd, get_snd]

/-- C3: for every tracker state, `daily_consumption` equals
`get(MORNING) + get(NOON) + get(EVENING) + get(NIGHT)`, each absent
quantity contributing `0` (via the `setdefault` default); the computation
is a total function, so it never raises (the source's
`except (KeyError, AttributeError)` fallback to `0` is unreachable). -/
theorem C3_daily_consumption_is_dose_sum (s : InventoryManagerItem) :
    (s.daily_consumption).2 =
      (s.get .MORNING).2 + (s.get .NOON).2 + (s.get .EVENING).2 + (s.get .NIGHT).2 := by
  simp [daily_consumption_snd, get_snd]

/-- C4: after `set q v`, `get q` returns `v` when `v ≥ 0` and `0` when
`v < 0` (negative values are clamped to `0` at store time). -/
theorem C4_set_get_roundtrip_and_clamp (s : InventoryManagerItem)
    (q : InventoryManagerEntityType) (v : ℚ) :
    (0 ≤ v → ((s.set q v).get q).2 = v) ∧ (v < 0 → ((s.set q v).get q).2 = 0) := by
  constructor
  · intro h
    rw [get_snd, set_valueOf]
    simp [not_lt.mpr h]
  · intro h
    rw [get_snd, set_valueOf]
    simp [h]

/-- Witness for C4 at `v = 5` and `v = -3`. -/
theorem C4_witness :
    ((0:ℚ) ≤ 5 ∧ ((freshItem.set .SUPPLY 5).get .SUPPLY).2 = 5) ∧
    ((-3:ℚ) < 0 ∧ ((freshItem.set .MORNING (-3)).get .MORNING).2 = 0) :=
  ⟨⟨by norm_num, (C4_set_get_roundtrip_and_clamp freshItem .SUPPLY 5).1 (by norm_num)⟩,
   ⟨by norm_num, (C4_set_get_roundtrip_and_clamp freshItem .MORNING (-3)).2 (by norm_num)⟩⟩

/-- C5: `take_number 0` is a no-op (supply unchanged, no observer
notification); for every `a > 0` the resulting supply is
`max 0 (s - a)` where `s` is the supply before the call. -/
theorem C5_take_amount_clamped_subtraction (s : InventoryManagerItem) :
    ((s.take_number 0).get .SUPPLY).2 = (s.get .SUPPLY).2 ∧
    (s.take_number 0).notifications = s.notifications ∧
    ∀ a : ℚ, 0 < a →
      ((s.take_number a).get .SUPPLY).2 = max 0 ((s.get .SUPPLY).2 - a) := by
  refine ⟨by rw [take_number_zero], by rw [take_number_zero], ?_⟩
  intro a ha
  rw [take_number_ne s a (ne_of_gt ha), get_snd, set_valueOf]
  simp only [if_pos rfl, get_snd, get_fst_valueOf]
  rcases lt_or_le (s.valueOf .SUPPLY - a) 0 with h | h
  · simp [h, max_eq_left (le_of_lt h)]
  · simp [not_lt.mpr h, max_eq_right h]

/-- Witness for C5 at `a = 5` on a fresh tracker. -/
theorem C5_witness :
    (0:ℚ) < 5 ∧
    ((freshItem.take_number 5).get .SUPPLY).2 = max 0 ((freshItem.get .SUPPLY).2 - 5) :=
  ⟨by norm_num, (C5_take_amount_clamped_subtraction freshItem).2.2 5 (by norm_num)⟩

/-- C6: `take_dose` with a tag outside `{MORNING, NOON, EVENING, NIGHT}`
raises nothing and leaves the whole tracker state unchanged; on a tag in
that set it reads `get(dose)` as the amount and delegates to
`take_number`. -/
theorem C6_take_dose_guard_and_delegation (s : InventoryManagerItem)
    (dose : InventoryManagerEntityType) :
    (dose ∉ [InventoryManagerEntityType.MORNING, InventoryManagerEntityType.NOON,
        InventoryManagerEntityType.EVENING, InventoryManagerEntityType.NIGHT] →
      s.take_dose dose = s) ∧
    (dose ∈ [InventoryManagerEntityType.MORNING, InventoryManagerEntityType.NOON,
        InventoryManagerEntityType.EVENING, InventoryManagerEntityType.NIGHT] →
      s.take_dose dose = (s.get dose).1.take_number (s.get dose).2) := by
  constructor
  · intro h
    simp [take_dose, h]
  · intro h
    simp [take_dose, h]

/-- Witness for C6 at the invalid tag `WARNING` and the valid tag
`MORNING`. -/
theorem C6_witness :
    (InventoryManagerEntityType.WARNING ∉ [InventoryManagerEntityType.MORNING,
        InventoryManagerEntityType.NOON, InventoryManagerEntityType.EVENING,
        InventoryManagerEntityType.NIGHT] ∧
      freshItem.take_dose .WARNING = freshItem) ∧
    (InventoryManagerEntityType.MORNING ∈ [InventoryManagerEntityType.MORNING,
        InventoryManagerEntityType.NOON, InventoryManagerEntityType.EVENING,
        InventoryManagerEntityType.NIGHT] ∧
      freshItem.take_dose .MORNING =
        (freshItem.get .MORNING).1.take_number (freshItem.get .MORNING).2) :=
  ⟨⟨by decide, (C6_take_dose_guard_and_delegation freshItem .WARNING).1 (by decide)⟩,
   ⟨by decide, (C6_take_dose_guard_and_delegation freshItem .MORNING).2 (by decide)⟩⟩

/-- C7: after any sequence of `set` / `get` / `take_dose` / `take_number`
operations on a freshly constructed tracker, every stored value is
non-negative and `get` returns a non-negative value for every quantity
(absent keys read as `0`, never an error). -/
theorem C7_nonneg_invariant (ops : List TrackerOp) (q : InventoryManagerEntityType) :
    (∀ v, (runOps freshItem ops).numbers q = some v → 0 ≤ v) ∧
    0 ≤ ((runOps freshItem ops).get q).2 := by
  have hs : storedNonneg (runOps freshItem ops) :=
    storedNonneg_runOps ops freshItem freshItem_storedNonneg
  exact ⟨fun v hv => hs q v hv, by rw [get_snd]; exact storedNonneg_valueOf hs q⟩

/-- Witness for C7 on the sequence `[set SUPPLY 5]` at `q = SUPPLY`,
`v = 5`. -/
theorem C7_witness :
    (0:ℚ) ≤ 5 ∧
    0 ≤ ((runOps freshItem [TrackerOp.opSet .SUPPLY 5]).get .SUPPLY).2 :=
  ⟨(C7_nonneg_invariant [TrackerOp.opSet .SUPPLY 5] .SUPPLY).1 5
      (by simp [runOps, applyOp, set_numbers]),
   (C7_nonneg_invariant [TrackerOp.opSet .SUPPLY 5] .SUPPLY).2⟩

/-- C8: every `set` call, whatever the quantity, issues exactly one
`update()` to each registered virtual observer (`WARNING` and
`EMPTYPREDICTION`); an unregistered slot receives none (a no-op, not an
error). -/
theorem C8_set_notifies_both_observers_once (s : InventoryManagerItem)
    (q : InventoryManagerEntityType) (v : ℚ) :
    ((s.set q v).notifications.count InventoryManagerEntityType.WARNING =
      s.notifications.count InventoryManagerEntityType.WARNING +
        (if s.registered .WARNING then 1 else 0)) ∧
    ((s.set q v).notifications.count InventoryManagerEntityType.EMPTYPREDICTION =
      s.notifications.count InventoryManagerEntityType.EMPTYPREDICTION +
        (if s.registered .EMPTYPREDICTION then 1 else 0)) := by
  cases h₁ : s.registered .EMPTYPREDICTION <;> cases h₂ : s.registered .WARNING <;>
    simp [set_notifications, h₁, h₂, List.count_append]

/-- C10: `set` mutates only the named quantity slot: for every other
quantity, the value `get` returns is unchanged. -/
theorem C10_set_frame (s : InventoryManagerItem) (q : InventoryManagerEntityType)
    (v : ℚ) (q' : InventoryManagerEntityType) (h : q' ≠ q) :
    ((s.set q v).get q').2 = (s.get q').2 := by
  rw [get_snd, get_snd, set_valueOf, if_neg h]

/-- Witness for C10 with `q = SUPPLY`, `q' = MORNING`. -/
theorem C10_witness :
    InventoryManagerEntityType.MORNING ≠ InventoryManagerEntityType.SUPPLY ∧
    ((freshItem.set .SUPPLY 7).get .MORNING).2 = (freshItem.get .MORNING).2 :=
  ⟨by decide, C10_set_frame freshItem .SUPPLY 7 .MORNING (by decide)⟩

/-- C2 fails on the code: on a tracker with no doses configured
(`daily_consumption() = 0`, so `days_remaining()` is the sentinel `10000`)
and the configured warning threshold `CONF_SENSOR_BEFORE_EMPTY = 20000`,
`WarnSensor.update` leaves `is_on = true`, because the guard comparing the
float `days_remaining` to the string constant `STATE_UNAVAILABLE` is
always false in Python, after which `is_on = (10000 < 20000) = True`.
The sentinel is NOT treated as "do not warn". -/
theorem C2_sentinel_still_warns :
    (warnItem.days_remaining).2 = 10000 ∧
    ((WarnSensor.update ⟨false, false⟩ warnItem 20000).1).is_on = true := by
  have hdr : (warnItem.days_remaining).2 = 10000 := by
    rw [days_remaining_snd]
    simp [daily_consumption_snd, warnItem_valueOf]
  refine ⟨hdr, ?_⟩
  rw [WarnSensor.update]
  simp only [floatEqStateUnavailable, Bool.false_eq_true, if_false, hdr]
  norm_num

/-- C9 counterexample: invoking `set` with the virtual tag `WARNING` is
not rejected with an `InvalidQuantity` error (no such error exists in the
code): the value is stored in `_numbers` and returned by a following
`get`. -/
theorem C9_counterexample :
    (freshItem.set .WARNING 5).numbers .WARNING = some 5 ∧
    ((freshItem.set .WARNING 5).get .WARNING).2 = 5 := by
  constructor
  · rw [set_numbers]
    simp
  · rw [get_snd, set_valueOf]
    simp

/-- C9 amended: `set` and `get` invoked with a virtual tag (`WARNING` or
`EMPTYPREDICTION`) are accepted exactly like the storable quantities: the
(non-negative-clamped) value is stored and `get` returns it; no
`InvalidQuantity` error is raised. -/
theorem C9_virtual_tags_accepted (s : InventoryManagerItem) (v : ℚ)
    (q : InventoryManagerEntityType)
    (h : q = InventoryManagerEntityType.WARNING ∨
      q = InventoryManagerEntityType.EMPTYPREDICTION) :
    ((s.set q v).get q).2 = if v < 0 then 0 else v := by
  rcases h with h | h <;> subst h <;> rw [get_snd, set_valueOf] <;> simp

/-- Witness for the amended C9 at `q = WARNING`, `v = 5`. -/
theorem C9_witness :
    (InventoryManagerEntityType.WARNING = InventoryManagerEntityType.WARNING ∨
      InventoryManagerEntityType.WARNING = InventoryManagerEntityType.EMPTYPREDICTION) ∧
    ((freshItem.set .WARNING 5).get .WARNING).2 = if (5:ℚ) < 0 then 0 else 5 :=
  ⟨Or.inl rfl, C9_virtual_tags_accepted freshItem 5 .WARNING (Or.inl rfl)⟩

/- Sanity checks for the concrete scenarios of the spec (section 8). -/

example : (freshItem.get .SUPPLY).2 = 0 := by rw [get_snd, freshItem_valueOf]

example :
    (((((freshItem.set .SUPPLY 10).set .MORNING 1).set .NOON 1).set
        .EVENING 1).set .NIGHT 1).daily_consumption.2 = 4 := by
  norm_num [daily_consumption_snd, set_valueOf, freshItem_valueOf]

example :
    ((((((freshItem.set .SUPPLY 10).set .MORNING 1).set .NOON 1).set
        .EVENING 1).set .NIGHT 1).days_remaining).2 = 5/2 := by
  rw [days_remaining_snd]
  simp [daily_consumption_snd, set_valueOf, freshItem_valueOf]
  norm_num

example : ((freshItem.set .SUPPLY 5).days_remaining).2 = 10000 := by
  rw [days_remaining_snd]
  simp [daily_consumption_snd, set_valueOf, freshItem_valueOf]

example : (((freshItem.set .SUPPLY 3).take_number 5).get .SUPPLY).2 = 0 := by
  rw [take_number_ne _ 5 (by norm_num), get_snd, set_valueOf]
  norm_num [get_snd, get_fst_valueOf, set_valueOf, freshItem_valueOf]
